import Mathlib

/-!
Shallow embedding of the SoulScript backend (src/backend/app) in Lean 4,
covering the data model (models.py), the moderation gate
(content_filter_service.py), the feature-flag registry
(feature_flag_service.py), the conversation memory manager and session
orchestrator (chat_service.py) and the anonymous-session route
(api/routes/chat.py).  UUIDs are modelled as naturals drawn from a
monotone allocator `DB.next_id` (uuid4 values are globally fresh);
timestamps are naturals; the OpenAI moderation classifier, the retrieval
collaborator and the chat/summary models are oracles supplied as
explicit arguments.
-/

namespace SoulScript

/-- Row of the `ChatSession` table (models.py).  `owner_id` is the
registered-user owner.  The `anon_session_id` field is *modelled from the
spec*: the spec's Session carries "registered user OR anonymous-session
token" and the route layer (api/routes/chat.py) queries
`ChatSession.anon_session_id`, but the field declaration itself is absent
from the models.py under src/. -/
structure ChatSessionRow where
  id : Nat
  owner_id : Option Nat
  anon_session_id : Option String
  title : String
  is_active : Bool
  conversation_summary : String
  last_summary_message_id : String
  is_blocked : Bool
  blocked_reason : String
  created_at : Nat
  updated_at : Nat
  deriving Repr, DecidableEq

/-- Row of the `ChatMessage` table (models.py): role is "user" or
"assistant"; rows are stored in creation (chronological) order. -/
structure ChatMessageRow where
  id : Nat
  session_id : Nat
  content : String
  role : String
  created_at : Nat
  deriving Repr, DecidableEq

/-- Row of the `ContentFilterLog` table (models.py). -/
structure ContentFilterLogRow where
  id : Nat
  user_id : Nat
  session_id : Option Nat
  content_type : String
  original_content : String
  blocked_reason : String
  deriving Repr, DecidableEq

/-- Row of the `FeatureFlag` table (models.py). -/
structure FeatureFlagRow where
  id : Nat
  name : String
  description : String
  is_enabled : Bool
  is_predefined : Bool
  deriving Repr, DecidableEq

/-- The relational store.  Lists are kept in insertion order, which for
messages coincides with `created_at` ascending (the canonical
conversation order).  `next_id` is the id allocator: every id ever
handed out is below it, so fresh ids never collide with live rows
(mirrors uuid4 freshness). -/
structure DB where
  sessions : List ChatSessionRow
  messages : List ChatMessageRow
  filter_logs : List ContentFilterLogRow
  flags : List FeatureFlagRow
  next_id : Nat
  deriving Repr, DecidableEq

/-- Apply `f` to every session row with the given id (the ORM mutation
`session.<field> = ...` followed by commit). -/
def DB.updateSession (db : DB) (session_id : Nat) (f : ChatSessionRow → ChatSessionRow) : DB :=
  { db with sessions := db.sessions.map (fun s => if s.id = session_id then f s else s) }

/-- `db.get(ChatSession, session_id)`: primary-key lookup. -/
def DB.getSession (db : DB) (session_id : Nat) : Option ChatSessionRow :=
  db.sessions.find? (fun s => s.id == session_id)

/- ----------------------------------------------------------------
Moderation gate: ContentFilterService.filter_content
(content_filter_service.py lines 27-96).
---------------------------------------------------------------- -/

/-- The four binary category flags that `filter_content` reads off the
classifier result (`blocked_categories` dict, content_filter_service.py
lines 54-59). -/
structure ModerationCategories where
  violence : Bool
  sexual : Bool
  self_harm : Bool
  hate : Bool
  deriving Repr, DecidableEq

/-- The corresponding category scores (floats in the source; the claims
never depend on their numeric type, so they are embedded as naturals). -/
structure ModerationScores where
  violence : Nat
  sexual : Nat
  self_harm : Nat
  hate : Nat
  deriving Repr, DecidableEq

/-- Outcome of one call to the external moderation classifier:
`no_client` models `self.client is None`, `failure` models an exception
raised by `self.client.moderations.create`, `ok` a successful response. -/
inductive ClassifierOutcome where
  | no_client
  | failure
  | ok (categories : ModerationCategories) (scores : ModerationScores)
  deriving Repr, DecidableEq

/-- The dict returned by `filter_content` (the `categories` score map is
omitted: no claim mentions it). -/
structure FilterResult where
  is_allowed : Bool
  blocked_reason : String
  confidence : Nat
  deriving Repr, DecidableEq

/-- The ordered `blocked_categories` dict: machine category paired with
its human-readable name, in Python dict insertion order. -/
def blocked_categories :
    List ((ModerationCategories → Bool) × (ModerationScores → Nat) × String) :=
  [(ModerationCategories.violence, ModerationScores.violence, "Violence"),
   (ModerationCategories.sexual, ModerationScores.sexual, "Sexual Content"),
   (ModerationCategories.self_harm, ModerationScores.self_harm, "Self-Harm"),
   (ModerationCategories.hate, ModerationScores.hate, "Hate Speech")]

/-- `ContentFilterService.filter_content`.  The text itself is classified
by the external service, so the verdict is a function of the supplied
classifier outcome; `content` is kept as an argument to mirror the
signature.  No client, or a classifier exception, yields the fail-open
result `{is_allowed: True, blocked_reason: "", confidence: 0.0}`. -/
def filter_content (_content : String) (outcome : ClassifierOutcome) : FilterResult :=
  match outcome with
  | ClassifierOutcome.no_client => { is_allowed := true, blocked_reason := "", confidence := 0 }
  | ClassifierOutcome.failure => { is_allowed := true, blocked_reason := "", confidence := 0 }
  | ClassifierOutcome.ok cats scores =>
      let tripped := blocked_categories.filter (fun p => p.1 cats)
      let blocked_reasons := tripped.map (fun p => p.2.2)
      let max_score := tripped.foldl (fun m p => Nat.max m (p.2.1 scores)) 0
      { is_allowed := blocked_reasons.isEmpty,
        blocked_reason := String.intercalate "; " blocked_reasons,
        confidence := max_score }

/-- `ContentFilterService.log_violation` (lines 98-127): append one
`ContentFilterLog` row and commit. -/
def log_violation (db : DB) (user_id : Nat) (session_id : Option Nat)
    (content_type original_content blocked_reason : String) : DB :=
  { db with
    filter_logs := db.filter_logs ++
      [{ id := db.next_id, user_id := user_id, session_id := session_id,
         content_type := content_type, original_content := original_content,
         blocked_reason := blocked_reason }],
    next_id := db.next_id + 1 }

/-- `ContentFilterService.block_chat_session` (lines 129-152): set
`is_blocked`/`blocked_reason`/`updated_at` on the session and commit;
no-op (returning False) when the session does not exist. -/
def block_chat_session (db : DB) (session_id : Nat) (blocked_reason : String)
    (now : Nat) : DB × Bool :=
  match db.getSession session_id with
  | none => (db, false)
  | some _ =>
      (db.updateSession session_id (fun s =>
        { s with is_blocked := true, blocked_reason := blocked_reason, updated_at := now }),
       true)

/- ----------------------------------------------------------------
Prompt constants (core/prompts.py).  Apostrophes in the source text are
written with the \x27 escape.
---------------------------------------------------------------- -/

def FEATURE_FLAG_ACTIVE_HEADER : String := "Active Feature Flags:"

def FEATURE_FLAG_INSTRUCTIONS : String :=
  "Instructions:\n1. If the user\x27s request relates to any of the above active features, provide detailed, helpful responses using the feature\x27s capabilities.\n2. For general questions (like greetings, casual conversations...), respond normally and helpfully.\n3. For specific requests that don\x27t relate to any active features above, respond with: \x27I apologize, but this feature is not currently available. These are the requests I can help you with:\x27 and then list the active feature titles as a markdown list.\n4. Always maintain a spiritual, supportive tone in your responses."

def AI_RESPONSE_BLOCKED_MESSAGE : String :=
  "I apologize, but I cannot provide that response as it contains inappropriate content. This chat session has been blocked."

def BLOCKED_SESSION_DELETE_ERROR : String :=
  "Cannot delete a blocked session. Blocked sessions are retained for safety and compliance purposes."

/-- `format_feature_flags_prompt` (core/prompts.py): empty list gives the
empty string, otherwise header, one bullet per flag, blank line,
instructions, blank line, fallback sentence and a restated name list. -/
def format_feature_flags_prompt (active_flags : List FeatureFlagRow) : String :=
  if active_flags.isEmpty then ""
  else
    String.intercalate "\n"
      ([FEATURE_FLAG_ACTIVE_HEADER] ++
       active_flags.map (fun f => "- " ++ f.name ++ ": " ++ f.description) ++
       [""] ++ [FEATURE_FLAG_INSTRUCTIONS] ++ [""] ++
       ["If a user\x27s request is not available, respond with the unavailable message and then append this list of available features:"] ++
       [String.intercalate "\n" (active_flags.map (fun f => "- " ++ f.name))])

/- ----------------------------------------------------------------
Feature flag registry: FeatureFlagService (feature_flag_service.py).
---------------------------------------------------------------- -/

/-- Payload of `FeatureFlagCreate` (models.py): `is_enabled` and
`is_predefined` inherited from `FeatureFlagBase` are ignored by
`create_flag`, which sets them itself. -/
structure FeatureFlagCreateData where
  name : String
  description : String
  deriving Repr, DecidableEq

/-- `FeatureFlagService.predefined_flags`: the six seed (name,
description) pairs; each seed dict carries `is_enabled: False`. -/
def predefined_flags : List (String × String) :=
  [("Spiritual Parenting", "Enable parenting-focused spiritual guidance and family-oriented advice for raising children with spiritual values."),
   ("Grief Support", "Enable grief counseling and loss support features to help users through difficult times with spiritual comfort."),
   ("Meditation Guidance", "Enable meditation techniques and mindfulness practices to help users develop spiritual awareness and inner peace."),
   ("Scripture Study", "Enable in-depth scripture analysis and biblical interpretation for deeper understanding of religious texts."),
   ("Prayer Requests", "Enable prayer request features and spiritual intercession support for community prayer needs."),
   ("Community Features", "Enable group discussions and community sharing features for spiritual fellowship.")]

/-- `FeatureFlagService.create_flag` (lines 120-153): refuse a taken
name, otherwise insert a row that is enabled (`is_enabled=True`,
"Automatically enable new flags") and not predefined. -/
def create_flag (db : DB) (flag_data : FeatureFlagCreateData) : DB × Option FeatureFlagRow :=
  match db.flags.find? (fun f => f.name == flag_data.name) with
  | some _ => (db, none)
  | none =>
      let new_flag : FeatureFlagRow :=
        { id := db.next_id, name := flag_data.name, description := flag_data.description,
          is_enabled := true, is_predefined := false }
      ({ db with flags := db.flags ++ [new_flag], next_id := db.next_id + 1 }, some new_flag)

/-- One iteration of the loop in
`FeatureFlagService.initialize_predefined_flags` (lines 56-80): create a
missing seed flag disabled and predefined, or refresh the description of
an existing row of the same name. -/
def seed_one_predefined_flag (db : DB) (entry : String × String) : DB :=
  match db.flags.find? (fun f => f.name == entry.1) with
  | none =>
      { db with
        flags := db.flags ++
          [{ id := db.next_id, name := entry.1, description := entry.2,
             is_enabled := false, is_predefined := true }],
        next_id := db.next_id + 1 }
  | some _ =>
      { db with
        flags := db.flags.map (fun f =>
          if f.name == entry.1 && f.description != entry.2 then
            { f with description := entry.2 }
          else f) }

/-- `FeatureFlagService.initialize_predefined_flags`: fold of the seed
loop over the predefined set. -/
def seed_predefined_flags (db : DB) : DB :=
  predefined_flags.foldl seed_one_predefined_flag db

/-- `FeatureFlagService.get_active_flags` composed with
`format_feature_flags_prompt`, i.e.
`FeatureFlagService.get_active_flags_prompt_text`. -/
def get_active_flags_prompt_text (db : DB) : String :=
  format_feature_flags_prompt (db.flags.filter (fun f => f.is_enabled))

/- ----------------------------------------------------------------
Conversation memory manager:
ConversationSummaryBufferMessageHistory (chat_service.py lines 40-214).
---------------------------------------------------------------- -/

/-- LangChain message kinds used by the history: `system` carries the
running summary, `human`/`ai` are turns. -/
inductive LCMessage where
  | system (content : String)
  | human (content : String)
  | ai (content : String)
  deriving Repr, DecidableEq

/-- `isinstance(m, SystemMessage)`. -/
def LCMessage.isSystem : LCMessage → Bool
  | LCMessage.system _ => true
  | _ => false

/-- In-memory state of one history: the message window, the design
constant `k` (default 6) and the owning session id. -/
structure Hist where
  messages : List LCMessage
  k : Nat
  session_id : Nat
  deriving Repr, DecidableEq

/-- Python `lst[-k:]`: the last `k` elements, except that `-0` is `0`,
so `k = 0` keeps the whole list. -/
def pyTakeLast {α : Type} (l : List α) (k : Nat) : List α :=
  if k = 0 then l else l.drop (l.length - k)

/-- SQL `ORDER BY created_at DESC LIMIT k` re-reversed into
chronological order: the last `min(k, length)` elements. -/
def recentK {α : Type} (l : List α) (k : Nat) : List α :=
  l.drop (l.length - k)

/-- `ConversationSummaryBufferMessageHistory._load_from_database`
(lines 67-108): a non-empty persisted summary becomes the leading
`system` message, followed by the most recent `k` persisted messages in
chronological order, each mapped to `human`/`ai` by role. -/
def load_from_database (db : DB) (session_id k : Nat) : List LCMessage :=
  match db.getSession session_id with
  | none => []
  | some s =>
      (if s.conversation_summary ≠ "" then [LCMessage.system s.conversation_summary] else [])
      ++ (recentK (db.messages.filter (fun m => m.session_id == session_id)) k).map
           (fun m => if m.role == "user" then LCMessage.human m.content else LCMessage.ai m.content)

/-- `ConversationSummaryBufferMessageHistory._save_summary_to_database`
(lines 172-197): store the new summary and remember the id of the
newest persisted message it covers. -/
def save_summary_to_database (db : DB) (session_id : Nat) (summary : String) (_now : Nat) : DB :=
  match db.getSession session_id with
  | none => db
  | some _ =>
      let session_messages := db.messages.filter (fun m => m.session_id == session_id)
      db.updateSession session_id (fun s =>
        let s := { s with conversation_summary := summary }
        match session_messages.getLast? with
        | none => s
        | some latest => { s with last_summary_message_id := toString latest.id })

/-- `ConversationSummaryBufferMessageHistory.add_messages` (lines
110-170).  A leading summary is popped, the new messages are appended,
and an overflow past `k` evicts the oldest turns (Python slice
semantics, see `pyTakeLast`) and folds them into a new summary produced
by the `llm` oracle.  If the summary call fails the exception is caught
after the window was already trimmed, so the trim survives and no
summary is prepended or saved. -/
def add_messages (h : Hist) (db : DB) (new : List LCMessage)
    (llm : Except Unit String) (now : Nat) : Hist × DB :=
  let (existing_summary, rest) :=
    match h.messages with
    | LCMessage.system s :: rest => (some s, rest)
    | ms => ((none : Option String), ms)
  let _ := existing_summary
  let msgs := rest ++ new
  if msgs.length > h.k then
    let kept := pyTakeLast msgs h.k
    match llm with
    | Except.error _ => ({ h with messages := kept }, db)
    | Except.ok new_summary =>
        let db := save_summary_to_database db h.session_id new_summary now
        ({ h with messages := LCMessage.system new_summary :: kept }, db)
  else
    ({ h with messages := msgs }, db)

/-- `ConversationSummaryBufferMessageHistory.add_message`. -/
def add_message (h : Hist) (db : DB) (m : LCMessage)
    (llm : Except Unit String) (now : Nat) : Hist × DB :=
  add_messages h db [m] llm now

/-- `ConversationSummaryBufferMessageHistory.clear` (lines 203-214):
drop the in-memory window and blank the durable summary fields.  The
persisted `ChatMessage` rows are untouched. -/
def Hist.clear (h : Hist) (db : DB) : Hist × DB :=
  match db.getSession h.session_id with
  | none => ({ h with messages := [] }, db)
  | some _ =>
      ({ h with messages := [] },
       db.updateSession h.session_id (fun s =>
         { s with conversation_summary := "", last_summary_message_id := "" }))

/- ----------------------------------------------------------------
Session orchestrator: ChatService (chat_service.py lines 217-739).
---------------------------------------------------------------- -/

/-- The `ValueError`s raised by `ChatService.send_message` and
`delete_session`, distinguished by their message text. -/
inductive SendError where
  | not_found
  | session_blocked
  | content_blocked (reason : String)
  | pipeline_unavailable
  | upstream
  deriving Repr, DecidableEq

/-- Oracles consumed by one `send_message` call: the two moderation
classifier calls, whether a chat pipeline was configured, the model
response (`Except.error` models an exception from `invoke`), the
retrieval collaborator output, the two summarizer calls that
`add_message` may issue, and the wall clock. -/
structure SendEnv where
  user_filter : ClassifierOutcome
  ai_filter : ClassifierOutcome
  pipeline_available : Bool
  model_response : Except Unit String
  pdf_context : String
  summarize_user : Except Unit String
  summarize_ai : Except Unit String
  now : Nat
  deriving Repr

/-- The dict returned by a successful `send_message`.  `model_input` is
ghost instrumentation recording the exact text handed to
`chat_pipeline.invoke` as `query`; it is not part of the source return
value and no persisted row is derived from it. -/
structure SendResult where
  user_message : ChatMessageRow
  ai_message : ChatMessageRow
  session : ChatSessionRow
  model_input : String
  deriving Repr, DecidableEq

/-- `session.title[:50] + "..."` auto-title derivation
(chat_service.py lines 641-645). -/
def truncate_title (content : String) : String :=
  if content.length > 50 then (content.take 50) ++ "..." else content

/-- The `enhanced_query` composition (chat_service.py lines 551-564):
optional retrieval-context wrapper with the citation instruction, then
the optional feature-flag block prepended. -/
def compose_query (db : DB) (content pdf_context : String) : String :=
  let enhanced_query :=
    if pdf_context ≠ "" then
      "Context from your documents:\n" ++ pdf_context ++ "\n\nUser question: " ++ content ++
        "\n\nPlease search the provided context and cite specific passages when answering."
    else content
  let active_flags_prompt := get_active_flags_prompt_text db
  if active_flags_prompt ≠ "" then active_flags_prompt ++ "\n\n" ++ enhanced_query
  else enhanced_query

/-- The part of `ChatService.send_message` (lines 505-656) that runs
after the user message was persisted: pipeline availability check,
prompt composition, memory update with the user turn, model call,
output moderation (with the safety-notice replacement), memory update
with the assistant turn, assistant-message persistence and the final
session title/timestamp commit.  `db` already contains the persisted
user message. -/
def send_message_tail (db : DB) (hist : Hist) (session_id user_id : Nat)
    (content : String) (env : SendEnv) (user_message : ChatMessageRow)
    (session : ChatSessionRow) : DB × Hist × Except SendError SendResult :=
  if env.pipeline_available = false then
    (db, hist, Except.error SendError.pipeline_unavailable)
  else
    let enhanced_query := compose_query db content env.pdf_context
    let hd₁ := add_message hist db (LCMessage.human content) env.summarize_user env.now
    match env.model_response with
    | Except.error _ => (hd₁.2, hd₁.1, Except.error SendError.upstream)
    | Except.ok response_content =>
      let ai_filter_result := filter_content response_content env.ai_filter
      let dc :=
        if ai_filter_result.is_allowed = false then
          ((block_chat_session
              (log_violation hd₁.2 user_id (some session_id) "ai_response"
                response_content ai_filter_result.blocked_reason)
              session_id ai_filter_result.blocked_reason env.now).1,
           AI_RESPONSE_BLOCKED_MESSAGE)
        else (hd₁.2, response_content)
      let hd₂ := add_message hd₁.1 dc.1 (LCMessage.ai dc.2) env.summarize_ai env.now
      let ai_message : ChatMessageRow :=
        { id := hd₂.2.next_id, session_id := session_id, content := dc.2,
          role := "assistant", created_at := env.now }
      let db₅ : DB :=
        { hd₂.2 with
          messages := hd₂.2.messages ++ [ai_message],
          next_id := hd₂.2.next_id + 1 }
      let db₆ := db₅.updateSession session_id (fun r =>
        { r with updated_at := env.now,
                 title := if r.title = "New Chat" then truncate_title content
                          else r.title })
      (db₆, hd₂.1,
       Except.ok { user_message := user_message, ai_message := ai_message,
                   session := (db₆.getSession session_id).getD session,
                   model_input := enhanced_query })

/-- `ChatService.send_message` (lines 429-664).  Commit points in the
source make every state change before a raise durable: the violation
log and the session block are committed inside their helpers, the user
message is committed before the pipeline runs, and the AI message plus
session title/timestamp changes are committed together at the end.  The
per-session history `hist` (the `chat_memory_map` entry) is threaded
explicitly. -/
def send_message (db : DB) (hist : Hist) (session_id user_id : Nat)
    (content : String) (env : SendEnv) : DB × Hist × Except SendError SendResult :=
  match db.sessions.find? (fun s => s.id == session_id && s.owner_id == some user_id) with
  | none => (db, hist, Except.error SendError.not_found)
  | some session =>
    if session.is_blocked then (db, hist, Except.error SendError.session_blocked)
    else
      let filter_result := filter_content content env.user_filter
      if filter_result.is_allowed = false then
        let db := log_violation db user_id (some session_id) "user_input" content
          filter_result.blocked_reason
        let db := (block_chat_session db session_id filter_result.blocked_reason env.now).1
        (db, hist, Except.error (SendError.content_blocked filter_result.blocked_reason))
      else
        let user_message : ChatMessageRow :=
          { id := db.next_id, session_id := session_id, content := content,
            role := "user", created_at := env.now }
        let db' : DB :=
          { db with
            messages := db.messages ++ [user_message],
            next_id := db.next_id + 1 }
        send_message_tail db' hist session_id user_id content env user_message session

/-- `ChatService.create_session` (lines 388-397). -/
def create_session (db : DB) (user_id : Nat) (title : String) (now : Nat) :
    DB × ChatSessionRow :=
  let session : ChatSessionRow :=
    { id := db.next_id, owner_id := some user_id, anon_session_id := none,
      title := title, is_active := true, conversation_summary := "",
      last_summary_message_id := "", is_blocked := false, blocked_reason := "",
      created_at := now, updated_at := now }
  ({ db with sessions := db.sessions ++ [session], next_id := db.next_id + 1 }, session)

/-- `ChatService.update_session_title` (lines 666-683). -/
def update_session_title (db : DB) (session_id user_id : Nat) (title : String)
    (now : Nat) : DB × Except SendError ChatSessionRow :=
  match db.sessions.find? (fun s => s.id == session_id && s.owner_id == some user_id) with
  | none => (db, Except.error SendError.not_found)
  | some _ =>
      let db := db.updateSession session_id (fun s =>
        { s with title := title, updated_at := now })
      match db.getSession session_id with
      | some s => (db, Except.ok s)
      | none => (db, Except.error SendError.not_found)

/-- `ChatService.delete_session` (lines 685-710).  In the source the
blocked-session guard (`if session.is_blocked: raise
ValueError(BLOCKED_SESSION_DELETE_ERROR)`) is indented inside the
`if not session:` branch *after* its raise, so it is unreachable; the
reachable behavior deletes any owned session, blocked or not, with
cascade deletion of its messages and filter logs (models.py declares
`ondelete="CASCADE"` on both). -/
def delete_session (db : DB) (session_id user_id : Nat) : DB × Except SendError Bool :=
  match db.sessions.find? (fun s => s.id == session_id && s.owner_id == some user_id) with
  | none => (db, Except.error SendError.not_found)
  | some _ =>
      ({ db with
         sessions := db.sessions.filter (fun s => !(s.id == session_id)),
         messages := db.messages.filter (fun m => !(m.session_id == session_id)),
         filter_logs := db.filter_logs.filter (fun l => !(l.session_id == some session_id)) },
       Except.ok true)

/-- What the blocked-session guard in `delete_session` was evidently
meant to do, read off the dead code and `BLOCKED_SESSION_DELETE_ERROR`:
refuse deletion of a blocked session.  Used only to document the
divergence for the retention-policy scenario. -/
def delete_session_intended (db : DB) (session_id user_id : Nat) :
    DB × Except String Bool :=
  match db.sessions.find? (fun s => s.id == session_id && s.owner_id == some user_id) with
  | none => (db, Except.error "Session not found or access denied")
  | some s =>
      if s.is_blocked then (db, Except.error BLOCKED_SESSION_DELETE_ERROR)
      else
        ({ db with
           sessions := db.sessions.filter (fun r => !(r.id == session_id)),
           messages := db.messages.filter (fun m => !(m.session_id == session_id)),
           filter_logs := db.filter_logs.filter (fun l => !(l.session_id == some session_id)) },
         Except.ok true)

/-- Modelled from the spec: the anonymous-session variant of
`ChatService.create_session` invoked by the route layer as
`chat_service.create_session(session, anon_session_id=..., title=...)`.
The service overload itself is absent from the chat_service.py under
src/; per the spec a session is owned by "registered user OR
anonymous-session token — exactly one of the two is set". -/
def create_session_anon (db : DB) (anon_session_id title : String) (now : Nat) :
    DB × ChatSessionRow :=
  let session : ChatSessionRow :=
    { id := db.next_id, owner_id := none, anon_session_id := some anon_session_id,
      title := title, is_active := true, conversation_summary := "",
      last_summary_message_id := "", is_blocked := false, blocked_reason := "",
      created_at := now, updated_at := now }
  ({ db with sessions := db.sessions ++ [session], next_id := db.next_id + 1 }, session)

/-- `create_anon_chat_session` (api/routes/chat.py lines 354-375):
return the existing session for this anonymous token if one exists,
otherwise create one. -/
def create_anon_chat_session (db : DB) (anon_session_id title : String) (now : Nat) :
    DB × ChatSessionRow :=
  match db.sessions.find? (fun s => s.anon_session_id == some anon_session_id) with
  | some chat_session => (db, chat_session)
  | none => create_session_anon db anon_session_id title now

/- ----------------------------------------------------------------
The state-mutating operations of the embedded services, as a step
relation over the store.  This is the universe over which "no operation
sets blocked back to false" is read.
---------------------------------------------------------------- -/

/-- One invocation of a store-mutating operation of the chat,
content-filter or feature-flag services (each constructor carries the
call's arguments and oracles). -/
inductive Op where
  | send (hist : Hist) (session_id user_id : Nat) (content : String) (env : SendEnv)
  | delete_sess (session_id user_id : Nat)
  | update_title (session_id user_id : Nat) (title : String) (now : Nat)
  | create_sess (user_id : Nat) (title : String) (now : Nat)
  | create_anon (anon_session_id title : String) (now : Nat)
  | block_sess (session_id : Nat) (reason : String) (now : Nat)
  | log_viol (user_id : Nat) (session_id : Option Nat) (ct oc br : String)
  | clear_hist (hist : Hist)
  | save_summary (session_id : Nat) (summary : String) (now : Nat)
  | flag_create (flag_data : FeatureFlagCreateData)
  | flag_seed

/-- Effect of one operation on the store. -/
def step (db : DB) : Op → DB
  | Op.send hist session_id user_id content env =>
      (send_message db hist session_id user_id content env).1
  | Op.delete_sess session_id user_id => (delete_session db session_id user_id).1
  | Op.update_title session_id user_id title now =>
      (update_session_title db session_id user_id title now).1
  | Op.create_sess user_id title now => (create_session db user_id title now).1
  | Op.create_anon anon_session_id title now =>
      (create_anon_chat_session db anon_session_id title now).1
  | Op.block_sess session_id reason now => (block_chat_session db session_id reason now).1
  | Op.log_viol user_id session_id ct oc br => log_violation db user_id session_id ct oc br
  | Op.clear_hist hist => (hist.clear db).2
  | Op.save_summary session_id summary now => save_summary_to_database db session_id summary now
  | Op.flag_create flag_data => (create_flag db flag_data).1
  | Op.flag_seed => seed_predefined_flags db

/-- Run a sequence of operations. -/
def run_ops (db : DB) (ops : List Op) : DB :=
  ops.foldl step db

/- ----------------------------------------------------------------
Spec-side auxiliary definitions used by the theorem statements.
---------------------------------------------------------------- -/

/-- Spec reading of the moderation reason: the human-readable names of
exactly the categories whose flags are set, in the gate's fixed
enumeration order. -/
def tripped_category_names (c : ModerationCategories) : List String :=
  (if c.violence then ["Violence"] else []) ++
  (if c.sexual then ["Sexual Content"] else []) ++
  (if c.self_harm then ["Self-Harm"] else []) ++
  (if c.hate then ["Hate Speech"] else [])

/- ----------------------------------------------------------------
Theorems.
---------------------------------------------------------------- -/

/-- C5: for every input text, when the moderation classifier call fails
or no classifier client is configured, the gate returns allowed=true
with an empty reason instead of propagating the error. -/
theorem filter_content_fails_open (content : String) :
    filter_content content ClassifierOutcome.no_client =
      { is_allowed := true, blocked_reason := "", confidence := 0 } ∧
    filter_content content ClassifierOutcome.failure =
      { is_allowed := true, blocked_reason := "", confidence := 0 } :=
  ⟨rfl, rfl⟩

/-- C6: on a successful classifier call the gate's verdict is blocked
iff at least one of the category flags is set, and the reason is
exactly the semicolon-joined list of the human-readable names of the
set categories (empty when allowed). -/
theorem filter_content_verdict (content : String) (cats : ModerationCategories)
    (scores : ModerationScores) :
    ((filter_content content (ClassifierOutcome.ok cats scores)).is_allowed = false ↔
      (cats.violence = true ∨ cats.sexual = true ∨ cats.self_harm = true ∨ cats.hate = true)) ∧
    (filter_content content (ClassifierOutcome.ok cats scores)).blocked_reason =
      String.intercalate "; " (tripped_category_names cats) ∧
    ((filter_content content (ClassifierOutcome.ok cats scores)).is_allowed = true →
      (filter_content content (ClassifierOutcome.ok cats scores)).blocked_reason = "") := by
  obtain ⟨v, sx, sh, ht⟩ := cats
  cases v <;> cases sx <;> cases sh <;> cases ht <;>
    simp [filter_content, blocked_categories, tripped_category_names, String.intercalate]

/-- C10: `create_flag` on a name not already taken creates the flag
enabled and non-predefined, while the predefined seeding path creates a
missing seed flag disabled. -/
theorem create_flag_enabled (db : DB) (flag_data : FeatureFlagCreateData)
    (h : db.flags.find? (fun f => f.name == flag_data.name) = none) :
    (∃ f, (create_flag db flag_data).2 = some f ∧
      f.is_enabled = true ∧ f.is_predefined = false ∧
      f.name = flag_data.name ∧ f.description = flag_data.description ∧
      (create_flag db flag_data).1.flags = db.flags ++ [f]) ∧
    (∀ entry : String × String,
      db.flags.find? (fun g => g.name == entry.1) = none →
      ∃ g, (seed_one_predefined_flag db entry).flags = db.flags ++ [g] ∧
        g.is_enabled = false ∧ g.is_predefined = true) := by
  constructor
  · refine ⟨{ id := db.next_id, name := flag_data.name,
              description := flag_data.description,
              is_enabled := true, is_predefined := false }, ?_, rfl, rfl, rfl, rfl, ?_⟩ <;>
      simp [create_flag, h]
  · intro entry he
    refine ⟨{ id := db.next_id, name := entry.1, description := entry.2,
              is_enabled := false, is_predefined := true }, ?_, rfl, rfl⟩
    simp [seed_one_predefined_flag, he]

/-- Concrete empty store used by the C10 witness. -/
def flagWitnessDB : DB :=
  { sessions := [], messages := [], filter_logs := [], flags := [], next_id := 1 }

/-- Concrete creation payload used by the C10 witness. -/
def flagWitnessData : FeatureFlagCreateData :=
  { name := "Night Mode", description := "dark theme" }

/-- Witness for C10 at a concrete store and payload. -/
theorem create_flag_enabled_witness :
    (∃ f, (create_flag flagWitnessDB flagWitnessData).2 = some f ∧
      f.is_enabled = true ∧ f.is_predefined = false ∧
      f.name = flagWitnessData.name ∧ f.description = flagWitnessData.description ∧
      (create_flag flagWitnessDB flagWitnessData).1.flags = flagWitnessDB.flags ++ [f]) ∧
    (∀ entry : String × String,
      flagWitnessDB.flags.find? (fun g => g.name == entry.1) = none →
      ∃ g, (seed_one_predefined_flag flagWitnessDB entry).flags =
          flagWitnessDB.flags ++ [g] ∧
        g.is_enabled = false ∧ g.is_predefined = true) :=
  create_flag_enabled flagWitnessDB flagWitnessData rfl

/-- C8: creating an anonymous session twice with the same anonymous
token returns the same session id both times, and the second call adds
nothing to the store. -/
theorem create_anon_idempotent (db : DB) (token title₁ title₂ : String) (now₁ now₂ : Nat) :
    (create_anon_chat_session (create_anon_chat_session db token title₁ now₁).1
        token title₂ now₂).2.id =
      (create_anon_chat_session db token title₁ now₁).2.id ∧
    (create_anon_chat_session (create_anon_chat_session db token title₁ now₁).1
        token title₂ now₂).1 =
      (create_anon_chat_session db token title₁ now₁).1 := by
  cases hfind : db.sessions.find? (fun s => s.anon_session_id == some token) with
  | some s =>
      simp [create_anon_chat_session, hfind]
  | none =>
      have hnew : (create_session_anon db token title₁ now₁).1.sessions.find?
          (fun s => s.anon_session_id == some token) =
          some (create_session_anon db token title₁ now₁).2 := by
        simp only [create_session_anon]
        rw [List.find?_append, hfind]
        simp
      simp [create_anon_chat_session, hfind, hnew]

/-- A blocked session owned by user 7, with one persisted message:
the failing input for the retention-policy scenario. -/
def blockedDeleteDB : DB :=
  { sessions := [{ id := 1, owner_id := some 7, anon_session_id := none, title := "t",
                   is_active := true, conversation_summary := "",
                   last_summary_message_id := "", is_blocked := true,
                   blocked_reason := "Violence", created_at := 0, updated_at := 0 }],
    messages := [{ id := 2, session_id := 1, content := "hi", role := "user",
                   created_at := 0 }],
    filter_logs := [], flags := [], next_id := 3 }

/-- C3: at the failing input — a blocked session owned by the caller —
the reachable code of `delete_session` deletes the session and its
messages and reports success, where the claim (and the dead guard in
the source, captured by `delete_session_intended`) requires the
retention-policy failure; deleting an unblocked owned session cascades
as claimed. -/
theorem delete_session_blocked_divergence :
    (delete_session blockedDeleteDB 1 7).2 = Except.ok true ∧
    (delete_session blockedDeleteDB 1 7).1.sessions = [] ∧
    (delete_session blockedDeleteDB 1 7).1.messages = [] ∧
    (delete_session_intended blockedDeleteDB 1 7).2 =
      Except.error BLOCKED_SESSION_DELETE_ERROR ∧
    (delete_session_intended blockedDeleteDB 1 7).1 = blockedDeleteDB := by
  refine ⟨?_, ?_, ?_, ?_, ?_⟩ <;>
    simp [delete_session, delete_session_intended, blockedDeleteDB, DB.getSession]

/-- The session row of the C7 counterexample: a stored summary exists. -/
def clearLoadSession : ChatSessionRow :=
  { id := 1, owner_id := some 7, anon_session_id := none, title := "t",
    is_active := true, conversation_summary := "old summary",
    last_summary_message_id := "2", is_blocked := false,
    blocked_reason := "", created_at := 0, updated_at := 0 }

/-- The store used by the C7 counterexample: session 1 has a stored
summary and one persisted message. -/
def clearLoadDB : DB :=
  { sessions := [clearLoadSession],
    messages := [{ id := 2, session_id := 1, content := "hi", role := "user",
                   created_at := 0 }],
    filter_logs := [], flags := [], next_id := 3 }

/-- The in-memory history of session 1 for the C7 counterexample. -/
def clearLoadHist : Hist :=
  { messages := [LCMessage.system "old summary", LCMessage.human "hi"], k := 6,
    session_id := 1 }

/-- C7 counterexample: after `clear` and a reload with no messages sent
in between, the window still holds the persisted message — `clear`
blanks the durable summary but does not delete `ChatMessage` rows, so
the reloaded window is not empty. -/
theorem clear_then_load_window_not_empty :
    load_from_database ((clearLoadHist.clear clearLoadDB).2) 1 6 =
      [LCMessage.human "hi"] ∧
    load_from_database ((clearLoadHist.clear clearLoadDB).2) 1 6 ≠ [] := by
  constructor <;> decide

/-- `updateSession` at an id-preserving mutation commutes with
primary-key lookup. -/
theorem getSession_updateSession (db : DB) (sid : Nat)
    (f : ChatSessionRow → ChatSessionRow) (hf : ∀ r, (f r).id = r.id) :
    (db.updateSession sid f).getSession sid =
      (db.getSession sid).map (fun r => if r.id = sid then f r else r) := by
  simp only [DB.updateSession, DB.getSession]
  rw [List.find?_map]
  have hp : ((fun s => s.id == sid) ∘ fun s => if s.id = sid then f s else s) =
      (fun s : ChatSessionRow => s.id == sid) := by
    funext r
    by_cases h : r.id = sid <;> simp [h, hf]
  rw [hp]

/-- C7 (amended): after `clear(session_id)` followed by `load` with no
messages sent in between, the durable summary is blank, the reloaded
window contains no summary element, and it consists of exactly the most
recent `k` persisted messages of the session (so it is empty exactly
when the session has no persisted messages — `clear` does not delete
persisted messages). -/
theorem clear_then_load (db : DB) (h : Hist) (k : Nat) (s : ChatSessionRow)
    (hs : db.getSession h.session_id = some s) :
    (h.clear db).1.messages = [] ∧
    (h.clear db).2.messages = db.messages ∧
    (∀ m ∈ load_from_database (h.clear db).2 h.session_id k, m.isSystem = false) ∧
    load_from_database (h.clear db).2 h.session_id k =
      (recentK (db.messages.filter (fun m => m.session_id == h.session_id)) k).map
        (fun m => if m.role == "user" then LCMessage.human m.content
                  else LCMessage.ai m.content) ∧
    (∀ t ∈ (h.clear db).2.sessions, t.id = h.session_id →
      t.conversation_summary = "" ∧ t.last_summary_message_id = "") := by
  have hs' : List.find? (fun r => r.id == h.session_id) db.sessions = some s := hs
  have hsid : s.id = h.session_id := by
    have := List.find?_some hs'
    simpa using this
  have hclear : h.clear db =
      ({ h with messages := [] },
       db.updateSession h.session_id (fun r =>
         { r with conversation_summary := "", last_summary_message_id := "" })) := by
    simp [Hist.clear, hs]
  have h2 : (h.clear db).2 = db.updateSession h.session_id (fun r =>
      { r with conversation_summary := "", last_summary_message_id := "" }) := by
    rw [hclear]
  have hget : ((h.clear db).2).getSession h.session_id =
      some { s with conversation_summary := "", last_summary_message_id := "" } := by
    rw [h2]
    rw [getSession_updateSession db h.session_id
      (fun r => { r with conversation_summary := "", last_summary_message_id := "" })
      (fun r => rfl)]
    rw [hs]
    simp [hsid]
  have hmsgs : ((h.clear db).2).messages = db.messages := by
    rw [h2]; rfl
  have hload : load_from_database (h.clear db).2 h.session_id k =
      (recentK (db.messages.filter (fun m => m.session_id == h.session_id)) k).map
        (fun m => if m.role == "user" then LCMessage.human m.content
                  else LCMessage.ai m.content) := by
    rw [load_from_database, hget, hmsgs]
    simp
  refine ⟨by rw [hclear], hmsgs, ?_, hload, ?_⟩
  · intro m hm
    rw [hload] at hm
    obtain ⟨m₀, _, rfl⟩ := List.mem_map.mp hm
    by_cases hr : m₀.role == "user" <;> simp [hr, LCMessage.isSystem]
  · intro t ht hid
    rw [h2] at ht
    simp only [DB.updateSession] at ht
    obtain ⟨t₀, _, rfl⟩ := List.mem_map.mp ht
    by_cases h₀ : t₀.id = h.session_id
    · simp [h₀]
    · exact absurd (by simpa [h₀] using hid) h₀

/-- Witness for the amended C7 theorem at the concrete counterexample
store. -/
theorem clear_then_load_witness :
    (clearLoadHist.clear clearLoadDB).1.messages = [] ∧
    (clearLoadHist.clear clearLoadDB).2.messages = clearLoadDB.messages ∧
    (∀ m ∈ load_from_database (clearLoadHist.clear clearLoadDB).2
        clearLoadHist.session_id 6, m.isSystem = false) ∧
    load_from_database (clearLoadHist.clear clearLoadDB).2 clearLoadHist.session_id 6 =
      (recentK (clearLoadDB.messages.filter
          (fun m => m.session_id == clearLoadHist.session_id)) 6).map
        (fun m => if m.role == "user" then LCMessage.human m.content
                  else LCMessage.ai m.content) ∧
    (∀ t ∈ (clearLoadHist.clear clearLoadDB).2.sessions,
      t.id = clearLoadHist.session_id →
      t.conversation_summary = "" ∧ t.last_summary_message_id = "") :=
  clear_then_load clearLoadDB clearLoadHist 6 clearLoadSession (by decide)

/- ----------------------------------------------------------------
Memory window invariant (C4).
---------------------------------------------------------------- -/

/-- The turn portion of a window: everything after the optional leading
summary message. -/
def turns : List LCMessage → List LCMessage
  | LCMessage.system _ :: rest => rest
  | l => l

/-- A system-free list is its own turn portion. -/
theorem turns_eq_self (l : List LCMessage) (h : ∀ m ∈ l, m.isSystem = false) :
    turns l = l := by
  cases l with
  | nil => rfl
  | cons m rest =>
      cases m with
      | system s =>
          exact absurd (h _ (List.mem_cons_self _ _)) (by simp [LCMessage.isSystem])
      | human c => rfl
      | ai c => rfl

/-- `add_messages` rewritten over the turn portion of the window: the
source pops the head exactly when it is the summary. -/
theorem add_messages_eq (h : Hist) (db : DB) (new : List LCMessage)
    (llm : Except Unit String) (now : Nat) :
    add_messages h db new llm now =
      (if (turns h.messages ++ new).length > h.k then
        match llm with
        | Except.error _ =>
            ({ h with messages := pyTakeLast (turns h.messages ++ new) h.k }, db)
        | Except.ok s =>
            ({ h with messages :=
                LCMessage.system s :: pyTakeLast (turns h.messages ++ new) h.k },
             save_summary_to_database db h.session_id s now)
      else ({ h with messages := turns h.messages ++ new }, db)) := by
  obtain ⟨ms, k, sid⟩ := h
  cases ms with
  | nil => rfl
  | cons m rest => cases m <;> rfl

/-- One `add_messages` call from a well-formed window: the result is
well-formed (any summary only at the head), its turn count is at most
`k`, and on eviction the window holds exactly the most recent `k`
turns. -/
theorem add_messages_window (h : Hist) (db : DB) (new : List LCMessage)
    (llm : Except Unit String) (now : Nat) (hk : 0 < h.k)
    (hwf : ∀ m ∈ turns h.messages, m.isSystem = false)
    (hnew : ∀ m ∈ new, m.isSystem = false) :
    (∀ m ∈ turns (add_messages h db new llm now).1.messages, m.isSystem = false) ∧
    (turns (add_messages h db new llm now).1.messages).length ≤ h.k ∧
    ((turns h.messages ++ new).length > h.k →
      turns (add_messages h db new llm now).1.messages =
        (turns h.messages ++ new).drop ((turns h.messages ++ new).length - h.k)) ∧
    (add_messages h db new llm now).1.k = h.k ∧
    (add_messages h db new llm now).1.session_id = h.session_id := by
  rw [add_messages_eq]
  have hmsgs : ∀ m ∈ turns h.messages ++ new, m.isSystem = false := by
    intro m hm
    rcases List.mem_append.mp hm with h₁ | h₂
    · exact hwf m h₁
    · exact hnew m h₂
  by_cases hlen : (turns h.messages ++ new).length > h.k
  · have hkept : pyTakeLast (turns h.messages ++ new) h.k =
        (turns h.messages ++ new).drop ((turns h.messages ++ new).length - h.k) := by
      rw [pyTakeLast, if_neg (Nat.pos_iff_ne_zero.mp hk)]
    have hkept_wf : ∀ m ∈ pyTakeLast (turns h.messages ++ new) h.k,
        m.isSystem = false := by
      intro m hm
      rw [hkept] at hm
      exact hmsgs m (List.drop_subset _ _ hm)
    have hkept_len : (pyTakeLast (turns h.messages ++ new) h.k).length = h.k := by
      rw [hkept, List.length_drop]
      omega
    cases llm with
    | error e =>
        simp only [if_pos hlen]
        rw [turns_eq_self _ hkept_wf]
        exact ⟨hkept_wf, by rw [hkept_len], fun _ => hkept, by trivial, by trivial⟩
    | ok s =>
        simp only [if_pos hlen]
        have hturns : turns (LCMessage.system s ::
            pyTakeLast (turns h.messages ++ new) h.k) =
            pyTakeLast (turns h.messages ++ new) h.k := rfl
        rw [hturns]
        exact ⟨hkept_wf, by rw [hkept_len], fun _ => hkept, by trivial, by trivial⟩
  · simp only [if_neg hlen]
    rw [turns_eq_self _ hmsgs]
    exact ⟨hmsgs, by omega, fun hc => absurd hc hlen, by trivial, by trivial⟩

/-- A sequence of `append` calls: each element carries the appended
messages, the summarizer oracle and the wall clock of that call. -/
def run_appends (h : Hist) (db : DB)
    (calls : List (List LCMessage × Except Unit String × Nat)) : Hist × DB :=
  calls.foldl (fun acc c => add_messages acc.1 acc.2 c.1 c.2.1 c.2.2) (h, db)

/-- The window invariant survives any sequence of `append` calls. -/
theorem run_appends_inv (calls : List (List LCMessage × Except Unit String × Nat)) :
    ∀ (h : Hist) (db : DB), 0 < h.k →
    (∀ m ∈ turns h.messages, m.isSystem = false) →
    (turns h.messages).length ≤ h.k →
    (∀ c ∈ calls, ∀ m ∈ c.1, m.isSystem = false) →
    (∀ m ∈ turns (run_appends h db calls).1.messages, m.isSystem = false) ∧
    (turns (run_appends h db calls).1.messages).length ≤ h.k ∧
    (run_appends h db calls).1.k = h.k := by
  induction calls with
  | nil => intro h db _ hwf hlen _; exact ⟨hwf, hlen, rfl⟩
  | cons c rest ih =>
      intro h db hk hwf hlen hcalls
      have hstep := add_messages_window h db c.1 c.2.1 c.2.2 hk hwf
        (hcalls c (List.mem_cons_self _ _))
      obtain ⟨hwf', hlen', _, hk', _⟩ := hstep
      have hrun : run_appends h db (c :: rest) =
          run_appends (add_messages h db c.1 c.2.1 c.2.2).1
            (add_messages h db c.1 c.2.1 c.2.2).2 rest := by
        simp [run_appends, List.foldl_cons]
      rw [hrun]
      have := ih (add_messages h db c.1 c.2.1 c.2.2).1
        (add_messages h db c.1 c.2.1 c.2.2).2
        (by rw [hk']; exact hk) hwf' (by rw [hk']; exact hlen')
        (fun c' hc' => hcalls c' (List.mem_cons_of_mem _ hc'))
      exact ⟨this.1, by rw [← hk']; exact this.2.1, by rw [← hk']; exact this.2.2⟩

/-- C4: from a well-formed window (summary, if any, only at the head;
at most `K` turns), any `add_messages` call keeps the turn count at
most `K`, keeps every summary at the head of the sequence fed to the
model, and after an eviction leaves exactly the most recent `K` turns;
the first two facts hold after any sequence of `append` calls. -/
theorem memory_window_invariant (h : Hist) (db : DB)
    (hk : 0 < h.k) (hwf : ∀ m ∈ turns h.messages, m.isSystem = false)
    (hlen : (turns h.messages).length ≤ h.k) :
    (∀ (db₀ : DB) (new : List LCMessage) (llm : Except Unit String) (now : Nat),
      (∀ m ∈ new, m.isSystem = false) →
      (∀ m ∈ turns (add_messages h db₀ new llm now).1.messages, m.isSystem = false) ∧
      (turns (add_messages h db₀ new llm now).1.messages).length ≤ h.k ∧
      ((turns h.messages ++ new).length > h.k →
        turns (add_messages h db₀ new llm now).1.messages =
          (turns h.messages ++ new).drop ((turns h.messages ++ new).length - h.k))) ∧
    (∀ calls : List (List LCMessage × Except Unit String × Nat),
      (∀ c ∈ calls, ∀ m ∈ c.1, m.isSystem = false) →
      (∀ m ∈ turns (run_appends h db calls).1.messages, m.isSystem = false) ∧
      (turns (run_appends h db calls).1.messages).length ≤ h.k) := by
  constructor
  · intro db₀ new llm now hnew
    have := add_messages_window h db₀ new llm now hk hwf hnew
    exact ⟨this.1, this.2.1, this.2.2.1⟩
  · intro calls hcalls
    have := run_appends_inv calls h db hk hwf hlen hcalls
    exact ⟨this.1, this.2.1⟩

/-- Window used by the C4 witness: a summary plus two turns, `k = 6`. -/
def memWitnessHist : Hist :=
  { messages := [LCMessage.system "recap", LCMessage.human "a", LCMessage.ai "b"],
    k := 6, session_id := 9 }

/-- Store used by the C4 witness. -/
def memWitnessDB : DB :=
  { sessions := [], messages := [], filter_logs := [], flags := [], next_id := 10 }

/-- Witness for C4: a window holding a summary and two turns, with
`k = 6`. -/
theorem memory_window_invariant_witness :
    (∀ (db₀ : DB) (new : List LCMessage) (llm : Except Unit String) (now : Nat),
      (∀ m ∈ new, m.isSystem = false) →
      (∀ m ∈ turns (add_messages memWitnessHist db₀ new llm now).1.messages,
        m.isSystem = false) ∧
      (turns (add_messages memWitnessHist db₀ new llm now).1.messages).length ≤
        memWitnessHist.k ∧
      ((turns memWitnessHist.messages ++ new).length > memWitnessHist.k →
        turns (add_messages memWitnessHist db₀ new llm now).1.messages =
          (turns memWitnessHist.messages ++ new).drop
            ((turns memWitnessHist.messages ++ new).length - memWitnessHist.k))) ∧
    (∀ calls : List (List LCMessage × Except Unit String × Nat),
      (∀ c ∈ calls, ∀ m ∈ c.1, m.isSystem = false) →
      (∀ m ∈ turns (run_appends memWitnessHist memWitnessDB calls).1.messages,
        m.isSystem = false) ∧
      (turns (run_appends memWitnessHist memWitnessDB calls).1.messages).length ≤
        memWitnessHist.k) :=
  memory_window_invariant memWitnessHist memWitnessDB (by decide) (by decide) (by decide)

/- ----------------------------------------------------------------
Store-effect lemmas for the orchestrator's helpers.
---------------------------------------------------------------- -/

theorem updateSession_messages (db : DB) (sid : Nat) (f : ChatSessionRow → ChatSessionRow) :
    (db.updateSession sid f).messages = db.messages := rfl

theorem updateSession_filter_logs (db : DB) (sid : Nat) (f : ChatSessionRow → ChatSessionRow) :
    (db.updateSession sid f).filter_logs = db.filter_logs := rfl

theorem updateSession_flags (db : DB) (sid : Nat) (f : ChatSessionRow → ChatSessionRow) :
    (db.updateSession sid f).flags = db.flags := rfl

theorem updateSession_next_id (db : DB) (sid : Nat) (f : ChatSessionRow → ChatSessionRow) :
    (db.updateSession sid f).next_id = db.next_id := rfl

theorem save_summary_messages (db : DB) (sid : Nat) (s : String) (now : Nat) :
    (save_summary_to_database db sid s now).messages = db.messages := by
  unfold save_summary_to_database
  cases DB.getSession db sid <;> rfl

theorem save_summary_filter_logs (db : DB) (sid : Nat) (s : String) (now : Nat) :
    (save_summary_to_database db sid s now).filter_logs = db.filter_logs := by
  unfold save_summary_to_database
  cases DB.getSession db sid <;> rfl

theorem save_summary_flags (db : DB) (sid : Nat) (s : String) (now : Nat) :
    (save_summary_to_database db sid s now).flags = db.flags := by
  unfold save_summary_to_database
  cases DB.getSession db sid <;> rfl

theorem save_summary_next_id (db : DB) (sid : Nat) (s : String) (now : Nat) :
    (save_summary_to_database db sid s now).next_id = db.next_id := by
  unfold save_summary_to_database
  cases DB.getSession db sid <;> rfl

theorem add_messages_db_messages (h : Hist) (db : DB) (new : List LCMessage)
    (llm : Except Unit String) (now : Nat) :
    (add_messages h db new llm now).2.messages = db.messages := by
  rw [add_messages_eq]
  by_cases hl : (turns h.messages ++ new).length > h.k
  · simp only [if_pos hl]
    cases llm with
    | error e => rfl
    | ok s => exact save_summary_messages db h.session_id s now
  · simp only [if_neg hl]

theorem add_messages_db_filter_logs (h : Hist) (db : DB) (new : List LCMessage)
    (llm : Except Unit String) (now : Nat) :
    (add_messages h db new llm now).2.filter_logs = db.filter_logs := by
  rw [add_messages_eq]
  by_cases hl : (turns h.messages ++ new).length > h.k
  · simp only [if_pos hl]
    cases llm with
    | error e => rfl
    | ok s => exact save_summary_filter_logs db h.session_id s now
  · simp only [if_neg hl]

theorem add_messages_db_flags (h : Hist) (db : DB) (new : List LCMessage)
    (llm : Except Unit String) (now : Nat) :
    (add_messages h db new llm now).2.flags = db.flags := by
  rw [add_messages_eq]
  by_cases hl : (turns h.messages ++ new).length > h.k
  · simp only [if_pos hl]
    cases llm with
    | error e => rfl
    | ok s => exact save_summary_flags db h.session_id s now
  · simp only [if_neg hl]

theorem add_messages_db_next_id (h : Hist) (db : DB) (new : List LCMessage)
    (llm : Except Unit String) (now : Nat) :
    (add_messages h db new llm now).2.next_id = db.next_id := by
  rw [add_messages_eq]
  by_cases hl : (turns h.messages ++ new).length > h.k
  · simp only [if_pos hl]
    cases llm with
    | error e => rfl
    | ok s => exact save_summary_next_id db h.session_id s now
  · simp only [if_neg hl]

/-- `compose_query` reads only the flag table. -/
theorem compose_query_congr (db₁ db₂ : DB) (content pdf_context : String)
    (hf : db₁.flags = db₂.flags) :
    compose_query db₁ content pdf_context = compose_query db₂ content pdf_context := by
  unfold compose_query get_active_flags_prompt_text
  rw [hf]

/-- C2: when the moderation gate blocks the user's input on a live,
unblocked session, `send_message` writes exactly one ModerationLog
entry tagged `user_input`, blocks the session with the gate's reason,
fails with `ContentBlocked` carrying that reason, and persists no
ChatMessage. -/
theorem send_message_blocks_user_input
    (db : DB) (hist : Hist) (sid uid : Nat) (content : String) (env : SendEnv)
    (s : ChatSessionRow)
    (hfind : db.sessions.find? (fun r => r.id == sid && r.owner_id == some uid) = some s)
    (hnb : s.is_blocked = false)
    (hblocked : (filter_content content env.user_filter).is_allowed = false) :
    (send_message db hist sid uid content env).2.2 =
      Except.error (SendError.content_blocked
        (filter_content content env.user_filter).blocked_reason) ∧
    (send_message db hist sid uid content env).1.messages = db.messages ∧
    (send_message db hist sid uid content env).1.filter_logs = db.filter_logs ++
      [{ id := db.next_id, user_id := uid, session_id := some sid,
         content_type := "user_input", original_content := content,
         blocked_reason := (filter_content content env.user_filter).blocked_reason }] ∧
    (∀ t ∈ (send_message db hist sid uid content env).1.sessions, t.id = sid →
      t.is_blocked = true ∧
      t.blocked_reason = (filter_content content env.user_filter).blocked_reason) ∧
    (send_message db hist sid uid content env).2.1 = hist := by
  have hmem : s ∈ db.sessions := List.mem_of_find?_eq_some hfind
  have hpred := List.find?_some hfind
  have hsid : s.id = sid := by
    have := (Bool.and_eq_true _ _).mp hpred
    simpa using this.1
  have hgs : DB.getSession
      (log_violation db uid (some sid) "user_input" content
        (filter_content content env.user_filter).blocked_reason) sid =
      DB.getSession db sid := rfl
  have hsome : ∃ t, DB.getSession db sid = some t := by
    have : (db.sessions.find? (fun r => r.id == sid)).isSome := by
      rw [List.find?_isSome]
      exact ⟨s, hmem, by simp [hsid]⟩
    exact Option.isSome_iff_exists.mp this
  obtain ⟨t₁, ht₁⟩ := hsome
  have heq : send_message db hist sid uid content env =
      ((block_chat_session
          (log_violation db uid (some sid) "user_input" content
            (filter_content content env.user_filter).blocked_reason)
          sid (filter_content content env.user_filter).blocked_reason env.now).1,
       hist,
       Except.error (SendError.content_blocked
         (filter_content content env.user_filter).blocked_reason)) := by
    unfold send_message
    rw [hfind]
    simp only [hnb, Bool.false_eq_true, if_false, hblocked]
    simp
  have hblock : (block_chat_session
      (log_violation db uid (some sid) "user_input" content
        (filter_content content env.user_filter).blocked_reason)
      sid (filter_content content env.user_filter).blocked_reason env.now).1 =
      (log_violation db uid (some sid) "user_input" content
        (filter_content content env.user_filter).blocked_reason).updateSession sid
        (fun r =>
          { r with
            is_blocked := true,
            blocked_reason := (filter_content content env.user_filter).blocked_reason,
            updated_at := env.now }) := by
    unfold block_chat_session
    rw [hgs, ht₁]
  rw [heq, hblock]
  refine ⟨rfl, rfl, rfl, ?_, rfl⟩
  intro t ht hid
  simp only [DB.updateSession, log_violation] at ht
  obtain ⟨t₀, _, rfl⟩ := List.mem_map.mp ht
  by_cases h₀ : t₀.id = sid
  · simp [h₀]
  · exact absurd (by simpa [h₀] using hid) h₀

/-- Fresh unblocked session used by the C2 witness. -/
def inputBlockSession : ChatSessionRow :=
  { id := 1, owner_id := some 7, anon_session_id := none, title := "New Chat",
    is_active := true, conversation_summary := "", last_summary_message_id := "",
    is_blocked := false, blocked_reason := "", created_at := 0, updated_at := 0 }

/-- Store used by the C2 witness. -/
def inputBlockDB : DB :=
  { sessions := [inputBlockSession], messages := [], filter_logs := [], flags := [],
    next_id := 2 }

/-- History used by the C2 witness. -/
def inputBlockHist : Hist := { messages := [], k := 6, session_id := 1 }

/-- Oracles of the C2 witness: the classifier trips the violence flag. -/
def inputBlockEnv : SendEnv :=
  { user_filter := ClassifierOutcome.ok
      { violence := true, sexual := false, self_harm := false, hate := false }
      { violence := 9, sexual := 0, self_harm := 0, hate := 0 },
    ai_filter := ClassifierOutcome.no_client,
    pipeline_available := true, model_response := Except.ok "resp",
    pdf_context := "", summarize_user := Except.ok "sum",
    summarize_ai := Except.ok "sum", now := 5 }

/-- Witness for C2 at a concrete store, session and classifier outcome. -/
theorem send_message_blocks_user_input_witness :
    (send_message inputBlockDB inputBlockHist 1 7 "violent text" inputBlockEnv).2.2 =
      Except.error (SendError.content_blocked
        (filter_content "violent text" inputBlockEnv.user_filter).blocked_reason) ∧
    (send_message inputBlockDB inputBlockHist 1 7 "violent text" inputBlockEnv).1.messages =
      inputBlockDB.messages ∧
    (send_message inputBlockDB inputBlockHist 1 7 "violent text" inputBlockEnv).1.filter_logs =
      inputBlockDB.filter_logs ++
      [{ id := inputBlockDB.next_id, user_id := 7, session_id := some 1,
         content_type := "user_input", original_content := "violent text",
         blocked_reason :=
           (filter_content "violent text" inputBlockEnv.user_filter).blocked_reason }] ∧
    (∀ t ∈ (send_message inputBlockDB inputBlockHist 1 7 "violent text"
        inputBlockEnv).1.sessions, t.id = 1 →
      t.is_blocked = true ∧
      t.blocked_reason =
        (filter_content "violent text" inputBlockEnv.user_filter).blocked_reason) ∧
    (send_message inputBlockDB inputBlockHist 1 7 "violent text" inputBlockEnv).2.1 =
      inputBlockHist :=
  send_message_blocks_user_input inputBlockDB inputBlockHist 1 7 "violent text"
    inputBlockEnv inputBlockSession (by decide) (by decide) (by decide)

theorem log_violation_messages (db : DB) (u : Nat) (sid : Option Nat)
    (ct oc br : String) : (log_violation db u sid ct oc br).messages = db.messages := rfl

theorem log_violation_flags (db : DB) (u : Nat) (sid : Option Nat)
    (ct oc br : String) : (log_violation db u sid ct oc br).flags = db.flags := rfl

theorem block_chat_session_messages (db : DB) (sid : Nat) (r : String) (now : Nat) :
    (block_chat_session db sid r now).1.messages = db.messages := by
  unfold block_chat_session
  cases DB.getSession db sid <;> rfl

theorem block_chat_session_next_id (db : DB) (sid : Nat) (r : String) (now : Nat) :
    (block_chat_session db sid r now).1.next_id = db.next_id := by
  unfold block_chat_session
  cases DB.getSession db sid <;> rfl

theorem add_message_db_messages (h : Hist) (db : DB) (m : LCMessage)
    (llm : Except Unit String) (now : Nat) :
    (add_message h db m llm now).2.messages = db.messages :=
  add_messages_db_messages h db [m] llm now

theorem add_message_db_flags (h : Hist) (db : DB) (m : LCMessage)
    (llm : Except Unit String) (now : Nat) :
    (add_message h db m llm now).2.flags = db.flags :=
  add_messages_db_flags h db [m] llm now

theorem add_message_db_next_id (h : Hist) (db : DB) (m : LCMessage)
    (llm : Except Unit String) (now : Nat) :
    (add_message h db m llm now).2.next_id = db.next_id :=
  add_messages_db_next_id h db [m] llm now

/-- Success shape of `send_message_tail`: with an available pipeline and
a successful model call it returns `ok`, echoes the supplied user
message, appends exactly one assistant row whose content is the model
output or the safety notice, and feeds the composed query to the
model. -/
theorem send_message_tail_spec (db : DB) (hist : Hist) (sid uid : Nat)
    (content : String) (env : SendEnv) (um : ChatMessageRow)
    (session : ChatSessionRow) (resp : String)
    (hpipe : env.pipeline_available = true)
    (hmodel : env.model_response = Except.ok resp) :
    ∃ res : SendResult,
      (send_message_tail db hist sid uid content env um session).2.2 = Except.ok res ∧
      res.user_message = um ∧
      res.ai_message.role = "assistant" ∧
      (res.ai_message.content = resp ∨
        res.ai_message.content = AI_RESPONSE_BLOCKED_MESSAGE) ∧
      (send_message_tail db hist sid uid content env um session).1.messages =
        db.messages ++ [res.ai_message] ∧
      res.model_input = compose_query db content env.pdf_context := by
  unfold send_message_tail
  simp only [hpipe, hmodel, Bool.true_eq_false, if_false]
  by_cases hai : (filter_content resp env.ai_filter).is_allowed = false
  · simp only [hai]
    refine ⟨_, rfl, rfl, rfl, Or.inr rfl, ?_, rfl⟩
    simp [updateSession_messages, add_message_db_messages, block_chat_session_messages,
      log_violation_messages]
  · have hx : (filter_content resp env.ai_filter).is_allowed = true := by
      revert hai
      cases (filter_content resp env.ai_filter).is_allowed <;> simp
    simp only [hx, Bool.true_eq_false]
    refine ⟨_, rfl, rfl, rfl, Or.inl rfl, ?_, rfl⟩
    simp [updateSession_messages, add_message_db_messages]

/-- C9: on every successful `send_message`, the persisted user message
carries the caller's original `content` unchanged, the only rows added
to the message table are that user message and the assistant message
(whose content is the model output, or the fixed safety notice when the
output was moderated away), and the composed prompt — feature-flag
block, retrieval context, citation instruction — reaches only the model
input. -/
theorem send_message_persists_original
    (db : DB) (hist : Hist) (sid uid : Nat) (content : String) (env : SendEnv)
    (s : ChatSessionRow) (resp : String)
    (hfind : db.sessions.find? (fun r => r.id == sid && r.owner_id == some uid) = some s)
    (hnb : s.is_blocked = false)
    (hallow : (filter_content content env.user_filter).is_allowed = true)
    (hpipe : env.pipeline_available = true)
    (hmodel : env.model_response = Except.ok resp) :
    ∃ res : SendResult,
      (send_message db hist sid uid content env).2.2 = Except.ok res ∧
      res.user_message.content = content ∧
      res.user_message.role = "user" ∧
      res.ai_message.role = "assistant" ∧
      (res.ai_message.content = resp ∨
        res.ai_message.content = AI_RESPONSE_BLOCKED_MESSAGE) ∧
      (send_message db hist sid uid content env).1.messages =
        db.messages ++ [res.user_message, res.ai_message] ∧
      res.model_input = compose_query db content env.pdf_context := by
  have hred : send_message db hist sid uid content env =
      send_message_tail
        { db with
          messages := db.messages ++
            [{ id := db.next_id, session_id := sid, content := content,
               role := "user", created_at := env.now }],
          next_id := db.next_id + 1 }
        hist sid uid content env
        { id := db.next_id, session_id := sid, content := content,
          role := "user", created_at := env.now } s := by
    unfold send_message
    rw [hfind]
    simp only [hnb, hallow, Bool.false_eq_true, Bool.true_eq_false, if_false]
  rw [hred]
  obtain ⟨res, h₁, h₂, h₃, h₄, h₅, h₆⟩ := send_message_tail_spec _ hist sid uid content
    env _ s resp hpipe hmodel
  refine ⟨res, h₁, by rw [h₂], by rw [h₂], h₃, h₄, ?_, ?_⟩
  · rw [h₅, h₂]
    simp
  · rw [h₆]
    exact compose_query_congr _ db content env.pdf_context rfl

/-- Fresh unblocked session used by the C9 witness. -/
def persistSession : ChatSessionRow :=
  { id := 1, owner_id := some 7, anon_session_id := none, title := "New Chat",
    is_active := true, conversation_summary := "", last_summary_message_id := "",
    is_blocked := false, blocked_reason := "", created_at := 0, updated_at := 0 }

/-- Store used by the C9 witness. -/
def persistDB : DB :=
  { sessions := [persistSession], messages := [], filter_logs := [], flags := [],
    next_id := 2 }

/-- History used by the C9 witness. -/
def persistHist : Hist := { messages := [], k := 6, session_id := 1 }

/-- Oracles of the C9 witness: no moderation client, working pipeline. -/
def persistEnv : SendEnv :=
  { user_filter := ClassifierOutcome.no_client,
    ai_filter := ClassifierOutcome.no_client,
    pipeline_available := true, model_response := Except.ok "Hello there",
    pdf_context := "", summarize_user := Except.ok "sum",
    summarize_ai := Except.ok "sum", now := 5 }

/-- Witness for C9 at a concrete store, session and oracle set. -/
theorem send_message_persists_original_witness :
    ∃ res : SendResult,
      (send_message persistDB persistHist 1 7 "Hello AI!" persistEnv).2.2 =
        Except.ok res ∧
      res.user_message.content = "Hello AI!" ∧
      res.user_message.role = "user" ∧
      res.ai_message.role = "assistant" ∧
      (res.ai_message.content = "Hello there" ∨
        res.ai_message.content = AI_RESPONSE_BLOCKED_MESSAGE) ∧
      (send_message persistDB persistHist 1 7 "Hello AI!" persistEnv).1.messages =
        persistDB.messages ++ [res.user_message, res.ai_message] ∧
      res.model_input = compose_query persistDB "Hello AI!" persistEnv.pdf_context :=
  send_message_persists_original persistDB persistHist 1 7 "Hello AI!" persistEnv
    persistSession "Hello there" rfl rfl rfl rfl rfl

/- ----------------------------------------------------------------
Blocked sessions are terminal (C1): no operation lowers `is_blocked`.
---------------------------------------------------------------- -/

/-- Every session row carrying this id is blocked. -/
def all_blocked (db : DB) (sid : Nat) : Prop :=
  ∀ t ∈ db.sessions, t.id = sid → t.is_blocked = true

/-- How one operation may change the session table: the allocator only
grows, and every surviving row either descends from a row of the same
id without lowering `is_blocked`, or is a fresh row whose id came from
the allocator. -/
def blocked_evolution (db db' : DB) : Prop :=
  db.next_id ≤ db'.next_id ∧
  ∀ t ∈ db'.sessions,
    (∃ t₀ ∈ db.sessions, t.id = t₀.id ∧ (t₀.is_blocked = true → t.is_blocked = true)) ∨
    db.next_id ≤ t.id

theorem blocked_evolution_refl (db : DB) : blocked_evolution db db :=
  ⟨Nat.le_refl _, fun t ht => Or.inl ⟨t, ht, rfl, id⟩⟩

theorem blocked_evolution_trans {db₁ db₂ db₃ : DB}
    (h₁ : blocked_evolution db₁ db₂) (h₂ : blocked_evolution db₂ db₃) :
    blocked_evolution db₁ db₃ := by
  refine ⟨Nat.le_trans h₁.1 h₂.1, ?_⟩
  intro t ht
  rcases h₂.2 t ht with ⟨t₂, ht₂, hid₂, hb₂⟩ | hfresh₂
  · rcases h₁.2 t₂ ht₂ with ⟨t₁, ht₁, hid₁, hb₁⟩ | hfresh₁
    · exact Or.inl ⟨t₁, ht₁, hid₂.trans hid₁, fun hb => hb₂ (hb₁ hb)⟩
    · exact Or.inr (by omega)
  · exact Or.inr (Nat.le_trans h₁.1 hfresh₂)

/-- Operations that leave the session table unchanged evolve it. -/
theorem blocked_evolution_of_eq {db db' : DB}
    (hs : db'.sessions = db.sessions) (hn : db.next_id ≤ db'.next_id) :
    blocked_evolution db db' :=
  ⟨hn, fun t ht => Or.inl ⟨t, by rw [hs] at ht; exact ht, rfl, id⟩⟩

/-- `updateSession` with an id-preserving, block-monotone mutation
evolves the table. -/
theorem blocked_evolution_updateSession (db : DB) (sid : Nat)
    (f : ChatSessionRow → ChatSessionRow)
    (hid : ∀ r, (f r).id = r.id)
    (hbm : ∀ r, r.is_blocked = true → (f r).is_blocked = true) :
    blocked_evolution db (db.updateSession sid f) := by
  refine ⟨Nat.le_refl _, ?_⟩
  intro t ht
  simp only [DB.updateSession] at ht
  obtain ⟨t₀, ht₀, rfl⟩ := List.mem_map.mp ht
  by_cases h₀ : t₀.id = sid
  · exact Or.inl ⟨t₀, ht₀, by simp [h₀, hid], fun hb => by simp [h₀, hbm t₀ hb]⟩
  · exact Or.inl ⟨t₀, ht₀, by simp [h₀], fun hb => by simp [h₀, hb]⟩

/-- Deletions (sub-lists of the table) evolve it. -/
theorem blocked_evolution_of_subset {db db' : DB}
    (hs : ∀ t ∈ db'.sessions, t ∈ db.sessions) (hn : db.next_id ≤ db'.next_id) :
    blocked_evolution db db' :=
  ⟨hn, fun t ht => Or.inl ⟨t, hs t ht, rfl, id⟩⟩

/-- Appending a freshly allocated row evolves the table. -/
theorem blocked_evolution_append {db db' : DB} (t_new : ChatSessionRow)
    (hs : db'.sessions = db.sessions ++ [t_new]) (hfresh : db.next_id ≤ t_new.id)
    (hn : db.next_id ≤ db'.next_id) :
    blocked_evolution db db' := by
  refine ⟨hn, ?_⟩
  intro t ht
  rw [hs] at ht
  rcases List.mem_append.mp ht with h | h
  · exact Or.inl ⟨t, h, rfl, id⟩
  · have : t = t_new := by simpa using h
    exact Or.inr (this ▸ hfresh)

/-- Evolution transports the all-blocked property forward. -/
theorem all_blocked_mono {db db' : DB} {sid : Nat}
    (he : blocked_evolution db db') (hb : all_blocked db sid)
    (hlt : sid < db.next_id) : all_blocked db' sid ∧ sid < db'.next_id := by
  constructor
  · intro t ht hid
    rcases he.2 t ht with ⟨t₀, ht₀, hid₀, hbm⟩ | hfresh
    · exact hbm (hb t₀ ht₀ (by omega))
    · omega
  · exact Nat.lt_of_lt_of_le hlt he.1

theorem log_violation_evolution (db : DB) (u : Nat) (sid : Option Nat)
    (ct oc br : String) : blocked_evolution db (log_violation db u sid ct oc br) :=
  blocked_evolution_of_eq rfl (Nat.le_succ _)

/-- Persisting one message row touches only the message table and the
allocator. -/
theorem blocked_evolution_add_row (db : DB) (m : ChatMessageRow) :
    blocked_evolution db
      { db with messages := db.messages ++ [m], next_id := db.next_id + 1 } :=
  ⟨Nat.le_succ _, fun t ht => Or.inl ⟨t, ht, rfl, id⟩⟩

theorem block_chat_session_evolution (db : DB) (sid : Nat) (r : String) (now : Nat) :
    blocked_evolution db (block_chat_session db sid r now).1 := by
  unfold block_chat_session
  cases DB.getSession db sid with
  | none => exact blocked_evolution_refl db
  | some s =>
      exact blocked_evolution_updateSession db sid _ (fun t => rfl) (fun t _ => rfl)

theorem save_summary_evolution (db : DB) (sid : Nat) (s : String) (now : Nat) :
    blocked_evolution db (save_summary_to_database db sid s now) := by
  unfold save_summary_to_database
  cases DB.getSession db sid with
  | none => exact blocked_evolution_refl db
  | some _ =>
      apply blocked_evolution_updateSession
      · intro t
        cases (db.messages.filter (fun m => m.session_id == sid)).getLast? <;> rfl
      · intro t hb
        cases (db.messages.filter (fun m => m.session_id == sid)).getLast? <;> exact hb

theorem add_messages_evolution (h : Hist) (db : DB) (new : List LCMessage)
    (llm : Except Unit String) (now : Nat) :
    blocked_evolution db (add_messages h db new llm now).2 := by
  rw [add_messages_eq]
  by_cases hl : (turns h.messages ++ new).length > h.k
  · simp only [if_pos hl]
    cases llm with
    | error e => exact blocked_evolution_refl db
    | ok s => exact save_summary_evolution db h.session_id s now
  · simp only [if_neg hl]
    exact blocked_evolution_refl db

theorem add_message_evolution (h : Hist) (db : DB) (m : LCMessage)
    (llm : Except Unit String) (now : Nat) :
    blocked_evolution db (add_message h db m llm now).2 :=
  add_messages_evolution h db [m] llm now

/-- The AI-output moderation step (log + block on a tripped verdict,
identity otherwise) evolves the table. -/
theorem moderated_ai_evolution (db : DB) (b : Bool) (uid sid : Nat)
    (resp br : String) (now : Nat) :
    blocked_evolution db
      (if b = false then
        ((block_chat_session (log_violation db uid (some sid) "ai_response" resp br)
            sid br now).1, AI_RESPONSE_BLOCKED_MESSAGE)
      else (db, resp)).1 := by
  cases b with
  | false =>
      exact blocked_evolution_trans
        (log_violation_evolution db uid (some sid) "ai_response" resp br)
        (block_chat_session_evolution _ sid br now)
  | true => exact blocked_evolution_refl db

theorem send_message_tail_evolution (db : DB) (hist : Hist) (sid uid : Nat)
    (content : String) (env : SendEnv) (um : ChatMessageRow)
    (session : ChatSessionRow) :
    blocked_evolution db (send_message_tail db hist sid uid content env um session).1 := by
  have evtail : ∀ (dbx : DB) (m : ChatMessageRow),
      blocked_evolution dbx
        ((({ dbx with messages := dbx.messages ++ [m], next_id := dbx.next_id + 1 } : DB)).updateSession
          sid (fun r =>
            { r with updated_at := env.now,
                     title := if r.title = "New Chat" then truncate_title content
                              else r.title })) :=
    fun dbx m =>
      blocked_evolution_trans
        (blocked_evolution_add_row dbx m)
        (blocked_evolution_updateSession _ sid _ (fun t => rfl) (fun t hb => hb))
  unfold send_message_tail
  cases hpv : env.pipeline_available with
  | false =>
      simp only [hpv]
      exact blocked_evolution_refl db
  | true =>
      simp only [hpv]
      cases hmr : env.model_response with
      | error e =>
          simp only [hmr]
          exact add_message_evolution hist db (LCMessage.human content)
            env.summarize_user env.now
      | ok resp =>
          simp only [hmr]
          exact blocked_evolution_trans
            (add_message_evolution hist db (LCMessage.human content)
              env.summarize_user env.now)
            (blocked_evolution_trans
              (moderated_ai_evolution _ _ uid sid resp _ env.now)
              (blocked_evolution_trans
                (add_message_evolution _ _ _ env.summarize_ai env.now)
                (evtail _ _)))

theorem send_message_evolution (db : DB) (hist : Hist) (sid uid : Nat)
    (content : String) (env : SendEnv) :
    blocked_evolution db (send_message db hist sid uid content env).1 := by
  unfold send_message
  cases hf : db.sessions.find? (fun r => r.id == sid && r.owner_id == some uid) with
  | none => exact blocked_evolution_refl db
  | some session =>
      cases hbv : session.is_blocked with
      | true =>
          simp only [hbv]
          exact blocked_evolution_refl db
      | false =>
          simp only [hbv, Bool.false_eq_true]
          cases hfa : (filter_content content env.user_filter).is_allowed with
          | false =>
              simp only [hfa]
              exact blocked_evolution_trans
                (log_violation_evolution db uid (some sid) "user_input" content
                  (filter_content content env.user_filter).blocked_reason)
                (block_chat_session_evolution _ sid
                  (filter_content content env.user_filter).blocked_reason env.now)
          | true =>
              simp only [hfa, Bool.true_eq_false]
              exact blocked_evolution_trans
                (blocked_evolution_add_row db
                  { id := db.next_id, session_id := sid, content := content,
                    role := "user", created_at := env.now })
                (send_message_tail_evolution _ hist sid uid content env _ session)

theorem delete_session_evolution (db : DB) (sid uid : Nat) :
    blocked_evolution db (delete_session db sid uid).1 := by
  unfold delete_session
  cases db.sessions.find? (fun s => s.id == sid && s.owner_id == some uid) with
  | none => exact blocked_evolution_refl db
  | some s =>
      apply blocked_evolution_of_subset
      · intro t ht
        exact List.mem_of_mem_filter ht
      · exact Nat.le_refl _

theorem update_session_title_evolution (db : DB) (sid uid : Nat) (title : String)
    (now : Nat) : blocked_evolution db (update_session_title db sid uid title now).1 := by
  unfold update_session_title
  cases db.sessions.find? (fun s => s.id == sid && s.owner_id == some uid) with
  | none => exact blocked_evolution_refl db
  | some s =>
      dsimp only
      have hu : blocked_evolution db
          (db.updateSession sid (fun r => { r with title := title, updated_at := now })) :=
        blocked_evolution_updateSession db sid _ (fun t => rfl) (fun t hb => hb)
      cases (db.updateSession sid
          (fun r => { r with title := title, updated_at := now })).getSession sid with
      | none => exact hu
      | some t => exact hu

theorem create_session_evolution (db : DB) (uid : Nat) (title : String) (now : Nat) :
    blocked_evolution db (create_session db uid title now).1 := by
  apply blocked_evolution_append _ rfl (Nat.le_refl _) (Nat.le_succ _)

theorem create_anon_chat_session_evolution (db : DB) (token title : String) (now : Nat) :
    blocked_evolution db (create_anon_chat_session db token title now).1 := by
  unfold create_anon_chat_session
  cases db.sessions.find? (fun s => s.anon_session_id == some token) with
  | none => exact blocked_evolution_append _ rfl (Nat.le_refl _) (Nat.le_succ _)
  | some s => exact blocked_evolution_refl db

theorem clear_evolution (h : Hist) (db : DB) : blocked_evolution db (h.clear db).2 := by
  unfold Hist.clear
  cases db.getSession h.session_id with
  | none => exact blocked_evolution_refl db
  | some s =>
      exact blocked_evolution_updateSession db h.session_id _ (fun t => rfl)
        (fun t hb => hb)

theorem create_flag_evolution (db : DB) (d : FeatureFlagCreateData) :
    blocked_evolution db (create_flag db d).1 := by
  unfold create_flag
  cases db.flags.find? (fun f => f.name == d.name) with
  | none => exact blocked_evolution_of_eq rfl (Nat.le_succ _)
  | some f => exact blocked_evolution_refl db

theorem seed_one_evolution (db : DB) (entry : String × String) :
    blocked_evolution db (seed_one_predefined_flag db entry) := by
  unfold seed_one_predefined_flag
  cases db.flags.find? (fun f => f.name == entry.1) with
  | none => exact blocked_evolution_of_eq rfl (Nat.le_succ _)
  | some f => exact blocked_evolution_of_eq rfl (Nat.le_refl _)

theorem seed_fold_evolution (entries : List (String × String)) : ∀ db : DB,
    blocked_evolution db (entries.foldl seed_one_predefined_flag db) := by
  induction entries with
  | nil => exact fun db => blocked_evolution_refl db
  | cons e rest ih =>
      intro db
      exact blocked_evolution_trans (seed_one_evolution db e)
        (ih (seed_one_predefined_flag db e))

theorem seed_predefined_evolution (db : DB) :
    blocked_evolution db (seed_predefined_flags db) :=
  seed_fold_evolution predefined_flags db

/-- No operation of the embedded services lowers a session's
`is_blocked`; fresh sessions take ids from the allocator. -/
theorem step_evolution (db : DB) (op : Op) : blocked_evolution db (step db op) := by
  cases op with
  | send hist sid uid content env => exact send_message_evolution db hist sid uid content env
  | delete_sess sid uid => exact delete_session_evolution db sid uid
  | update_title sid uid title now => exact update_session_title_evolution db sid uid title now
  | create_sess uid title now => exact create_session_evolution db uid title now
  | create_anon token title now => exact create_anon_chat_session_evolution db token title now
  | block_sess sid reason now => exact block_chat_session_evolution db sid reason now
  | log_viol uid sid ct oc br => exact log_violation_evolution db uid sid ct oc br
  | clear_hist hist => exact clear_evolution hist db
  | save_summary sid summary now => exact save_summary_evolution db sid summary now
  | flag_create d => exact create_flag_evolution db d
  | flag_seed => exact seed_predefined_evolution db

theorem run_ops_evolution (ops : List Op) : ∀ db : DB,
    blocked_evolution db (run_ops db ops) := by
  induction ops with
  | nil => exact fun db => blocked_evolution_refl db
  | cons op rest ih =>
      intro db
      exact blocked_evolution_trans (step_evolution db op) (ih (step db op))

/-- C1: a blocked session rejects `send_message` with the `Blocked`
error, leaving the store and the in-memory history untouched, and no
operation sequence of the embedded services ever clears a session's
blocked flag. -/
theorem blocked_session_terminal
    (db : DB) (hist : Hist) (sid uid : Nat) (content : String) (env : SendEnv)
    (s : ChatSessionRow)
    (hfind : db.sessions.find? (fun r => r.id == sid && r.owner_id == some uid) = some s)
    (hb : all_blocked db sid)
    (hlt : sid < db.next_id) :
    send_message db hist sid uid content env =
      (db, hist, Except.error SendError.session_blocked) ∧
    ∀ ops : List Op, all_blocked (run_ops db ops) sid := by
  constructor
  · have hmem : s ∈ db.sessions := List.mem_of_find?_eq_some hfind
    have hpred := List.find?_some hfind
    have hsid : s.id = sid := by
      have := (Bool.and_eq_true _ _).mp hpred
      simpa using this.1
    have hsb : s.is_blocked = true := hb s hmem hsid
    unfold send_message
    rw [hfind]
    simp [hsb]
  · intro ops
    exact (all_blocked_mono (run_ops_evolution ops db) hb hlt).1

/-- Blocked session used by the C1 witness. -/
def terminalSession : ChatSessionRow :=
  { id := 1, owner_id := some 7, anon_session_id := none, title := "t",
    is_active := true, conversation_summary := "", last_summary_message_id := "",
    is_blocked := true, blocked_reason := "Hate Speech", created_at := 0,
    updated_at := 0 }

/-- Store used by the C1 witness. -/
def terminalDB : DB :=
  { sessions := [terminalSession], messages := [], filter_logs := [], flags := [],
    next_id := 2 }

/-- History used by the C1 witness. -/
def terminalHist : Hist := { messages := [], k := 6, session_id := 1 }

/-- Oracles of the C1 witness. -/
def terminalEnv : SendEnv :=
  { user_filter := ClassifierOutcome.no_client,
    ai_filter := ClassifierOutcome.no_client,
    pipeline_available := true, model_response := Except.ok "ok",
    pdf_context := "", summarize_user := Except.ok "sum",
    summarize_ai := Except.ok "sum", now := 5 }

/-- Witness for C1 at a concrete blocked session. -/
theorem blocked_session_terminal_witness :
    send_message terminalDB terminalHist 1 7 "hi" terminalEnv =
      (terminalDB, terminalHist, Except.error SendError.session_blocked) ∧
    ∀ ops : List Op, all_blocked (run_ops terminalDB ops) 1 :=
  blocked_session_terminal terminalDB terminalHist 1 7 "hi" terminalEnv
    terminalSession rfl
    (by
      intro t ht h
      have hts : t = terminalSession := by simpa [terminalDB] using ht
      rw [hts]
      rfl)
    (by decide)

end SoulScript
